import Mathlib

/-!
Verification of the interview-session engine in `mock_interview/views.py`
(Elevo repository) against its natural-language specification.

The Python functions relevant to the claims are embedded shallowly:
pure helpers become Lean functions, the Django turn store becomes an
explicit list-of-turns state with the endpoints' mutations as state
transformers, and the external generation providers are abstracted as an
attempt oracle (`Nat → Attempt`) fed to the faithfully-embedded retry
loops.  Spec-side definitions (used only to compare the spec's words with
the code) carry `_spec` in their name.
-/

namespace Elevo

/-- Interview stage classifier, from `get_interview_stage` in
`src/mock_interview/views.py` (lines 1076-1087).  The Python function
takes only the question number (an `int`, so embedded as `Int`). -/
def get_interview_stage (question_number : Int) : String :=
  if question_number ≤ 2 then "introduction"
  else if question_number ≤ 5 then "technical"
  else if question_number ≤ 8 then "behavioral"
  else if question_number ≤ 10 then "cultural_fit"
  else "closing"

/-- The two interview tracks named by the specification (§3).  The code's
classifier has no track parameter; this type exists only to state the
spec's version of the classifier. -/
inductive Track where
  | technical
  | hr
deriving DecidableEq

/-- Stage classifier as the specification describes it (§4.2): a function
of (turn number, track).  Used only to compare the spec's words against
`get_interview_stage`. -/
def stage_classifier_spec (n : Int) (t : Track) : String :=
  if n ≤ 1 then "introduction"
  else
    match t with
    | Track.technical =>
      if n ≤ 3 then "technical-core"
      else if n ≤ 5 then "technical-depth"
      else if n ≤ 7 then "problem-solving"
      else "final-evaluation"
    | Track.hr =>
      if n ≤ 3 then "hr-core"
      else if n ≤ 5 then "behavioral"
      else if n ≤ 7 then "situational-hr"
      else "final-evaluation"

/-- C1 counterexample: at turn number 2 the code's classifier returns
`introduction` while the claimed (spec) classifier on the technical track
returns `technical-core`; the code's classifier also cannot agree with the
claim because it ignores the track entirely. -/
theorem get_interview_stage_ne_spec_at_two :
    get_interview_stage 2 = "introduction" ∧
    stage_classifier_spec 2 Track.technical = "technical-core" ∧
    get_interview_stage 2 ≠ stage_classifier_spec 2 Track.technical := by
  refine ⟨rfl, rfl, ?_⟩
  decide

/-- C1 (amended): the stage classifier is a function of the question
number only (there is no track parameter); it returns `introduction` for
n ≤ 2, `technical` for 3 ≤ n ≤ 5, `behavioral` for 6 ≤ n ≤ 8,
`cultural_fit` for 9 ≤ n ≤ 10 and `closing` for n ≥ 11. -/
theorem get_interview_stage_intervals (n : Int) :
    (n ≤ 2 → get_interview_stage n = "introduction") ∧
    (3 ≤ n ∧ n ≤ 5 → get_interview_stage n = "technical") ∧
    (6 ≤ n ∧ n ≤ 8 → get_interview_stage n = "behavioral") ∧
    (9 ≤ n ∧ n ≤ 10 → get_interview_stage n = "cultural_fit") ∧
    (11 ≤ n → get_interview_stage n = "closing") := by
  unfold get_interview_stage
  refine ⟨?_, ?_, ?_, ?_, ?_⟩ <;> intro h <;> split_ifs <;>
    first | rfl | omega

/-- C1 witness: the amended intervals evaluated at question number 4. -/
theorem get_interview_stage_intervals_witness :
    get_interview_stage 4 = "technical" :=
  (get_interview_stage_intervals 4).2.1 (by constructor <;> decide)

/-- C10: the stage classifier is total over `Int` and always returns one
of exactly five strings; every question number ≤ 2 (including 0 and
negative numbers) yields `introduction`. -/
theorem get_interview_stage_total (n : Int) :
    get_interview_stage n ∈
      (["introduction", "technical", "behavioral", "cultural_fit",
        "closing"] : List String) ∧
    (n ≤ 2 → get_interview_stage n = "introduction") := by
  unfold get_interview_stage
  constructor
  · split_ifs <;> simp
  · intro h
    split_ifs
    rfl

/-- C10 witness: a negative question number is classified `introduction`. -/
theorem get_interview_stage_total_witness :
    get_interview_stage (-5) = "introduction" :=
  (get_interview_stage_total (-5)).2 (by decide)

/-! ## Python string primitives

The Python string operations the views use (`in`, `startswith`, `strip`,
`split`, `replace`, `lower`, `upper`) are embedded as structurally
recursive functions over character lists, so that closed theorems can be
evaluated by the kernel. -/

/-- Leading-whitespace removal over a character list. -/
def dropLeadingWs : List Char → List Char
  | [] => []
  | c :: rest => if c.isWhitespace then dropLeadingWs rest else c :: rest

/-- Python `s.strip()`: drop whitespace from both ends. -/
def pyStrip (s : String) : String :=
  ⟨dropLeadingWs ((dropLeadingWs s.data.reverse).reverse)⟩

/-- Python `s.split()` with no separator: maximal runs of non-whitespace
characters; empty chunks never appear. -/
def pySplitWsAux : List Char → List Char → List (List Char)
  | [], acc => if acc.isEmpty then [] else [acc.reverse]
  | c :: rest, acc =>
    if c.isWhitespace then
      if acc.isEmpty then pySplitWsAux rest []
      else acc.reverse :: pySplitWsAux rest []
    else pySplitWsAux rest (c :: acc)

/-- Python `s.startswith(pre)`. -/
def pyStartsWith (s pre : String) : Bool :=
  pre.data.isPrefixOf s.data

/-- Substring search over character lists (Python `sub in s`). -/
def listContainsSub (sub : List Char) : List Char → Bool
  | [] => sub.isEmpty
  | c :: rest => sub.isPrefixOf (c :: rest) || listContainsSub sub rest

/-- Python `sub in s` on strings. -/
def strContainsPy (s sub : String) : Bool :=
  listContainsSub sub.data s.data

/-- Python `s.replace(old, new)` over character lists: all
non-overlapping occurrences, scanned left to right.  Structural
recursion on a fuel argument (each step consumes at least one character,
so `cs.length` fuel always suffices at the call site). -/
def pyReplaceFuel (old new : List Char) : Nat → List Char → List Char
  | _, [] => []
  | 0, cs => cs
  | fuel + 1, c :: rest =>
    if old ≠ [] ∧ old.isPrefixOf (c :: rest) then
      new ++ pyReplaceFuel old new fuel ((c :: rest).drop old.length)
    else c :: pyReplaceFuel old new fuel rest

/-- Python `s.replace(old, new)` on strings. -/
def pyReplace (s old new : String) : String :=
  ⟨pyReplaceFuel old.data new.data s.data.length s.data⟩

/-- Python `s.lower()`. -/
def pyLower (s : String) : String := ⟨s.data.map Char.toLower⟩

/-- Python `s.upper()`. -/
def pyUpper (s : String) : String := ⟨s.data.map Char.toUpper⟩

/-! ## Provider gateway: `call_ai_model` and the per-provider calls -/

/-- Outcome of one raw generation attempt against a provider client: the
attempt either completes with a response text (possibly empty — an empty
`response.text` / missing `choices` is how the providers report an
unusable completion) or raises an exception carrying a message string.
The provider client is external, so the sequence of attempt outcomes is
an oracle indexed by attempt number. -/
inductive Attempt where
  | completed (text : String)
  | raised (msg : String)

/-- The quota test in both retry loops (views.py lines 433 and 517):
`"429" in error_message or "quota" in error_message.lower()`. -/
def isQuotaError (msg : String) : Bool :=
  strContainsPy msg "429" || strContainsPy (pyLower msg) "quota"

/-- The safety test in the Gemini retry loop (views.py line 437):
`"SAFETY" in error_message.upper()`. -/
def isSafetyError (msg : String) : Bool :=
  strContainsPy (pyUpper msg) "SAFETY"

/-- The `for attempt in range(3)` loop of `_call_gemini_model`'s text
branch (views.py lines 407-445), one step per pending attempt index.
`Except.error` is an exception escaping the loop (a re-raised quota or
safety error, or the last attempt's failure); falling off the loop yields
`Except.ok ""`.  An attempt completing with non-empty text returns it
stripped; one completing with empty text falls through to the next
attempt (the `raise` on a SAFETY finish reason is caught by its own
`except` clause and only logs). -/
def gemini_retry_loop (attempts : Nat → Attempt) : List Nat → Except String String
  | [] => Except.ok ""
  | i :: rest =>
    match attempts i with
    | Attempt.completed t =>
      if t ≠ "" then Except.ok (pyStrip t) else gemini_retry_loop attempts rest
    | Attempt.raised m =>
      if isQuotaError m then Except.error m
      else if isSafetyError m then Except.error m
      else if rest.isEmpty then Except.error m
      else gemini_retry_loop attempts rest

/-- `_call_gemini_model` on a text prompt (views.py lines 348-449): run
the three-attempt retry loop inside the outer `try`; any exception that
escapes the loop is caught by the outer handler, which returns the empty
string.  When no Gemini model name is configured and re-detection fails,
the call returns `""` without attempting generation. -/
def call_gemini_model_text (modelName : Option String)
    (attempts : Nat → Attempt) : String :=
  match modelName with
  | none => ""
  | some _ =>
    match gemini_retry_loop attempts [0, 1, 2] with
    | Except.ok s => s
    | Except.error _ => ""

/-- The `for attempt in range(3)` loop of `_call_openai_model`'s text
branch (views.py lines 495-525): same shape as the Gemini loop but with
no safety re-raise, and with no surrounding `try`, so an escaping
exception propagates to the caller. -/
def openai_retry_loop (attempts : Nat → Attempt) : List Nat → Except String String
  | [] => Except.ok ""
  | i :: rest =>
    match attempts i with
    | Attempt.completed t =>
      if t ≠ "" then Except.ok (pyStrip t) else openai_retry_loop attempts rest
    | Attempt.raised m =>
      if isQuotaError m then Except.error m
      else if rest.isEmpty then Except.error m
      else openai_retry_loop attempts rest

/-- `_call_openai_model` on a text prompt. -/
def call_openai_model_text (attempts : Nat → Attempt) : Except String String :=
  openai_retry_loop attempts [0, 1, 2]

/-- The static fallback question bank of `_get_fallback_response`
(views.py lines 533-538). -/
def fallback_questions : List String :=
  ["I apologize, but I'm experiencing technical difficulties. Could you please tell me about your background and experience?",
   "Let's continue with a basic question - what interests you most about this role?",
   "Can you share an example of a challenging project you've worked on recently?",
   "What do you consider your greatest professional strengths?"]

/-- `_get_fallback_response` for a text request: `random.choice` over the
bank, modeled by an externally-drawn random index reduced modulo the
bank's size. -/
def get_fallback_response_text (randIdx : Nat) : String :=
  fallback_questions.getD (randIdx % fallback_questions.length) ""

/-- The configured provider (`AI_PROVIDER`). -/
inductive Provider where
  | gemini
  | openai

/-- `call_ai_model` on a text prompt (views.py lines 323-346): if the
providers were never initialized, return a fallback question; otherwise
dispatch to the configured provider, converting any exception escaping
the provider call into a fallback question.  (`_call_gemini_model` never
lets an exception escape its text branch; `_call_openai_model` does.) -/
def call_ai_model_text (provider : Provider) (aiInitialized : Bool)
    (geminiModelName : Option String) (attempts : Nat → Attempt)
    (randIdx : Nat) : String :=
  if !aiInitialized then get_fallback_response_text randIdx
  else
    match provider with
    | Provider.gemini => call_gemini_model_text geminiModelName attempts
    | Provider.openai =>
      match call_openai_model_text attempts with
      | Except.ok s => s
      | Except.error _ => get_fallback_response_text randIdx

/-! ## The per-turn question acceptance of `ai_interaction_api` -/

/-- The canned closing used by `ai_interaction_api` when a completed
interview's closing text is missing or shorter than 50 characters
(views.py line 1694). -/
def closing_fallback_text : String :=
  "Thank you so much for this wonderful conversation! You've shared some really insightful responses about your experience and approach to work. I can tell you've put a lot of thought into your career development. You should receive detailed feedback shortly. I really enjoyed getting to know you today, and I wish you the very best!"

/-- Python `len(s.split())`: the number of maximal non-empty
whitespace-separated chunks. -/
def wordCount (s : String) : Nat :=
  (pySplitWsAux s.data []).length

/-- The question-acceptance path of `ai_interaction_api` (views.py lines
1670-1756): given the text produced by `call_ai_model`, the session's
current turn count, and whether the elapsed duration exceeds 25 minutes,
the endpoint either surfaces an error response (`none`, HTTP 500 —
exactly when the text is empty) or records `some text` as the freshly
created turn's question, after the completion-path rewriting. -/
def api_turn_question (aiText : String) (turnCount : Nat)
    (durationOver25 : Bool) : Option String :=
  if aiText = "" then none
  else
    let complete := pyStartsWith aiText "INTERVIEW_COMPLETE" ||
      decide (12 ≤ turnCount) || durationOver25
    if complete then
      let t := if pyStartsWith aiText "INTERVIEW_COMPLETE" then
          pyStrip (pyReplace aiText "INTERVIEW_COMPLETE" "")
        else aiText
      let t := if t = "" || (pyStrip t).length < 50 then closing_fallback_text
        else t
      some t
    else some aiText

/-- Shared helper: the endpoint surfaces an error for a turn request
exactly when the generated text is empty. -/
theorem api_turn_question_none_iff (s : String) (c : Nat) (d : Bool) :
    api_turn_question s c d = none ↔ s = "" := by
  unfold api_turn_question
  constructor
  · intro h
    by_contra hs
    rw [if_neg hs] at h
    dsimp only at h
    split at h <;> simp_all
  · intro h
    rw [if_pos h]

/-- Shared helper: every entry of the fallback bank is non-empty. -/
theorem get_fallback_response_text_ne_empty (r : Nat) :
    get_fallback_response_text r ≠ "" := by
  have hlen : fallback_questions.length = 4 := rfl
  unfold get_fallback_response_text
  rw [hlen]
  have h : r % 4 = 0 ∨ r % 4 = 1 ∨ r % 4 = 2 ∨ r % 4 = 3 := by omega
  rcases h with h | h | h | h <;> rw [h] <;> decide

/-- C2 counterexample: a three-word candidate question is accepted
verbatim as the new turn's question; no nine-word (or any word-count)
completeness gate exists on the turn path. -/
theorem short_question_accepted :
    wordCount "What is recursion?" < 9 ∧
    api_turn_question "What is recursion?" 3 false =
      some "What is recursion?" := by
  refine ⟨by decide, ?_⟩
  rfl

/-- C2 (amended): the per-turn path rejects a generated question exactly
when it is the empty string; any non-empty candidate — regardless of word
count — is accepted, and verbatim whenever the completion path is not
taken. -/
theorem api_accepts_nonempty (s : String) (c : Nat) (d : Bool) :
    (api_turn_question s c d = none ↔ s = "") ∧
    (s ≠ "" → pyStartsWith s "INTERVIEW_COMPLETE" = false → c < 12 →
      api_turn_question s c false = some s) := by
  refine ⟨api_turn_question_none_iff s c d, ?_⟩
  intro hs hsw hc
  unfold api_turn_question
  rw [if_neg hs]
  dsimp only
  rw [hsw]
  have h12 : decide (12 ≤ c) = false := by simp; omega
  rw [h12]
  rfl

/-- C2 witness: the amended statement evaluated on the three-word
candidate at turn count 3. -/
theorem api_accepts_nonempty_witness :
    api_turn_question "What is recursion?" 3 false =
      some "What is recursion?" :=
  (api_accepts_nonempty "What is recursion?" 3 false).2
    (by decide) (by decide) (by decide)

/-- C4 counterexample: with Gemini configured, three attempts that all
complete with empty text make `_call_gemini_model` return `""` without
raising anything; `call_ai_model` passes the empty string through (its
exception handler never fires, so no fallback question is substituted),
and `ai_interaction_api` then surfaces a raw error response (HTTP 500)
instead of a question for the turn. -/
theorem empty_generation_surfaces_error :
    call_ai_model_text Provider.gemini true (some "models/gemini-1.5-flash")
      (fun _ => Attempt.completed "") 0 = "" ∧
    api_turn_question "" 3 false = none := ⟨rfl, rfl⟩

/-- C4 (amended): an exception escaping the provider call is absorbed by
`call_ai_model` into a non-empty fallback question, which the per-turn
endpoint accepts; but a provider call that completes with an empty result
string is passed through as `""`, and the per-turn endpoint then surfaces
an error response rather than a question, so not every generation-layer
failure resolves to a usable question. -/
theorem generation_failure_handling (attempts : Nat → Attempt) (r : Nat)
    (mn : Option String) (e : String) (c : Nat) (d : Bool) :
    (call_openai_model_text attempts = Except.error e →
      call_ai_model_text Provider.openai true mn attempts r =
        get_fallback_response_text r ∧
      get_fallback_response_text r ≠ "" ∧
      api_turn_question
        (call_ai_model_text Provider.openai true mn attempts r) c d ≠ none) ∧
    (call_gemini_model_text mn attempts = "" →
      api_turn_question
        (call_ai_model_text Provider.gemini true mn attempts r) c d = none) := by
  constructor
  · intro h
    have hcall : call_ai_model_text Provider.openai true mn attempts r =
        get_fallback_response_text r := by
      unfold call_ai_model_text
      rw [h]
      rfl
    refine ⟨hcall, get_fallback_response_text_ne_empty r, ?_⟩
    rw [hcall]
    intro hnone
    exact get_fallback_response_text_ne_empty r
      ((api_turn_question_none_iff _ c d).mp hnone)
  · intro h
    have hcall : call_ai_model_text Provider.gemini true mn attempts r =
        call_gemini_model_text mn attempts := rfl
    rw [h] at hcall
    rw [hcall]
    exact (api_turn_question_none_iff _ c d).mpr rfl

/-- C4 witness: the amended statement at concrete inputs — an OpenAI call
whose single attempt raises a non-quota error on every try, and a Gemini
call whose attempts all complete empty. -/
theorem generation_failure_handling_witness :
    call_ai_model_text Provider.openai true none
      (fun _ => Attempt.raised "connection reset") 1 =
      get_fallback_response_text 1 ∧
    api_turn_question
      (call_ai_model_text Provider.gemini true (some "models/gemini-1.5-flash")
        (fun _ => Attempt.completed "") 1) 3 false = none := by
  constructor
  · exact (generation_failure_handling (fun _ => Attempt.raised "connection reset")
      1 none "connection reset" 3 false).1 (by rfl) |>.1
  · exact (generation_failure_handling (fun _ => Attempt.completed "")
      1 (some "models/gemini-1.5-flash") "" 3 false).2 (by rfl)

/-- C7 counterexample: fallback selection is `random.choice`, not a
rotation by turn count; when the two random draws coincide, two
consecutive invocations return the same bank entry although the bank has
4 entries, not 1. -/
theorem fallback_repeats :
    get_fallback_response_text 0 = get_fallback_response_text 0 ∧
    fallback_questions.length ≠ 1 := ⟨rfl, by decide⟩

/-- C7 (amended): `_get_fallback_response` draws uniformly at random from
a fixed four-entry bank, independent of the turn count, the session and
any skill; an invocation always returns a bank entry, and two invocations
return the same entry whenever their random draws agree modulo the bank
size — nothing prevents consecutive repeats. -/
theorem fallback_selection_random (i j : Nat) :
    get_fallback_response_text i ∈ fallback_questions ∧
    (i % fallback_questions.length = j % fallback_questions.length →
      get_fallback_response_text i = get_fallback_response_text j) := by
  constructor
  · have hlen : fallback_questions.length = 4 := rfl
    unfold get_fallback_response_text
    rw [hlen]
    have h : i % 4 = 0 ∨ i % 4 = 1 ∨ i % 4 = 2 ∨ i % 4 = 3 := by omega
    rcases h with h | h | h | h <;> rw [h] <;> decide
  · intro h
    unfold get_fallback_response_text
    rw [h]

/-- C7 witness: the amended statement at draws 1 and 5, which agree mod
4 and so return the same entry. -/
theorem fallback_selection_random_witness :
    get_fallback_response_text 1 = get_fallback_response_text 5 :=
  (fallback_selection_random 1 5).2 (by decide)

/-- C8 counterexample: a quota error (message containing "429") on the
first Gemini attempt skips the remaining attempts but does not propagate
out of the per-provider call — `_call_gemini_model`'s outer handler
catches the re-raised error and returns `""` instead, even though the
remaining attempts would have produced a question. -/
theorem gemini_quota_error_swallowed :
    call_gemini_model_text (some "models/gemini-1.5-flash")
      (fun i => if i == 0 then Attempt.raised "429 Resource has been exhausted"
        else Attempt.completed
          "Could you walk me through a project you are proud of?") = "" := by
  rfl

/-- C8 (amended): a quota/rate-limit failure (message containing "429" or
"quota") on the first attempt makes both providers' retry loops skip
every remaining attempt, whatever those attempts would have returned; the
exception propagates out of `_call_openai_model`, while
`_call_gemini_model` catches it internally and returns the empty string
instead of letting it escape. -/
theorem quota_error_skips_retries (f : Nat → Attempt) (m n : String)
    (h : isQuotaError m = true) :
    call_openai_model_text
      (fun i => if i == 0 then Attempt.raised m else f i) =
      Except.error m ∧
    call_gemini_model_text (some n)
      (fun i => if i == 0 then Attempt.raised m else f i) = "" := by
  constructor
  · unfold call_openai_model_text openai_retry_loop
    simp [h]
  · unfold call_gemini_model_text gemini_retry_loop
    simp [h]

/-- C8 witness: the amended statement at the message "429" with later
attempts that would have succeeded. -/
theorem quota_error_skips_retries_witness :
    call_openai_model_text
      (fun i => if i == 0 then Attempt.raised "429"
        else Attempt.completed "What challenges have you faced?") =
      Except.error "429" ∧
    call_gemini_model_text (some "models/gemini-1.5-flash")
      (fun i => if i == 0 then Attempt.raised "429"
        else Attempt.completed "What challenges have you faced?") = "" :=
  quota_error_skips_retries
    (fun _ => Attempt.completed "What challenges have you faced?")
    "429" "models/gemini-1.5-flash" (by decide)

/-! ## Feedback coercion in `review_interview` -/

/-- A JSON-ish value held in one field of the parsed feedback dict. -/
inductive FVal where
  | fint (n : Int)
  | fstr (s : String)
  | flist (l : List String)
deriving DecidableEq

/-- The parsed feedback dict as `review_interview` sees it before the
coercion pass (views.py line 2027): each key optionally present. -/
structure FeedbackDict where
  overall_score : Option FVal := none
  strengths : Option FVal := none
  areas_for_improvement : Option FVal := none
  technical_assessment : Option FVal := none
  communication_score : Option FVal := none
  confidence_level : Option FVal := none
  recommendations : Option FVal := none
  encouragement_note : Option FVal := none

/-- The fully-keyed feedback produced by the coercion pass. -/
structure Feedback where
  overall_score : FVal
  strengths : FVal
  areas_for_improvement : FVal
  technical_assessment : FVal
  communication_score : FVal
  confidence_level : FVal
  recommendations : FVal
  encouragement_note : FVal

/-- The per-list-field normalization (views.py lines 2039-2046): a
string value is fed to `json.loads` and replaced by whatever it parses
to — `jloads` is the embedded oracle for `json.loads`, returning `none`
exactly when Python raises — with the raw string wrapped into a
one-element list on parse failure; a non-list, non-string scalar is
wrapped via `str`.  A list value is left alone. -/
def coerce_list_field (jloads : String → Option FVal) : FVal → FVal
  | FVal.fstr s =>
    match jloads s with
    | some v => v
    | none => FVal.flist [s]
  | FVal.flist l => FVal.flist l
  | FVal.fint n => FVal.flist [toString n]

/-- The coercion pass of `review_interview` (views.py lines 2027-2046):
re-key the dict with `.get` defaults, then normalize the three list
fields.  Note that no clamping of the score fields occurs anywhere in
it: `overall_score` and `communication_score` are passed through
unchanged when present and defaulted to 70 when absent. -/
def review_coerce_feedback (jloads : String → Option FVal)
    (jobRole : String) (d : FeedbackDict) : Feedback :=
  { overall_score := d.overall_score.getD (FVal.fint 70)
    strengths := coerce_list_field jloads
      (d.strengths.getD (FVal.flist ["Completed the interview session"]))
    areas_for_improvement := coerce_list_field jloads
      (d.areas_for_improvement.getD
        (FVal.flist ["Continue practicing interview skills"]))
    technical_assessment := d.technical_assessment.getD
      (FVal.fstr ("Technical skills assessment for " ++ jobRole ++ " position."))
    communication_score := d.communication_score.getD (FVal.fint 70)
    confidence_level := d.confidence_level.getD (FVal.fstr "Good")
    recommendations := coerce_list_field jloads
      (d.recommendations.getD (FVal.flist ["Keep practicing mock interviews"]))
    encouragement_note := d.encouragement_note.getD
      (FVal.fstr "Great job completing the interview! Keep practicing to improve.") }

/-- The claim's concrete input:
`{overall_score: 999, communication_score: -40, strengths: "one"}`. -/
def sample_feedback_input : FeedbackDict :=
  { overall_score := some (FVal.fint 999)
    communication_score := some (FVal.fint (-40))
    strengths := some (FVal.fstr "one") }

/-- C3 counterexample: the coercion pass does not clamp the score fields.
On the input `{overall_score: 999, communication_score: -40,
strengths: "one"}` the scores pass through as 999 and -40 rather than
being clamped to 100 and 0; only the list wrapping happens (`json.loads
"one"` raises in Python, embedded as the parse oracle returning `none`
on every string). -/
theorem feedback_scores_not_clamped :
    (review_coerce_feedback (fun _ => none) "Software Engineer"
        sample_feedback_input).overall_score = FVal.fint 999 ∧
    (review_coerce_feedback (fun _ => none) "Software Engineer"
        sample_feedback_input).communication_score = FVal.fint (-40) ∧
    (review_coerce_feedback (fun _ => none) "Software Engineer"
        sample_feedback_input).strengths = FVal.flist ["one"] ∧
    FVal.fint 999 ≠ FVal.fint 100 :=
  ⟨rfl, rfl, rfl, by decide⟩

/-- C3 (amended): the coercion pass fills missing score fields with the
default 70 and passes present score values through unchanged — it never
clamps them into [0,100]; a bare string in a list field is wrapped into a
single-element list exactly when it does not parse as JSON, and a bare
non-string scalar is wrapped via `str`; so the claim's sample input
coerces to overall_score = 999, communication_score = -40 and
strengths = ["one"]. -/
theorem review_coerce_feedback_passthrough (jloads : String → Option FVal)
    (jobRole : String) (d : FeedbackDict) (v : FVal) (s : String) (n : Int) :
    (d.overall_score = some v →
      (review_coerce_feedback jloads jobRole d).overall_score = v) ∧
    (d.communication_score = some v →
      (review_coerce_feedback jloads jobRole d).communication_score = v) ∧
    (jloads s = none → d.strengths = some (FVal.fstr s) →
      (review_coerce_feedback jloads jobRole d).strengths = FVal.flist [s]) ∧
    (d.recommendations = some (FVal.fint n) →
      (review_coerce_feedback jloads jobRole d).recommendations =
        FVal.flist [toString n]) := by
  refine ⟨?_, ?_, ?_, ?_⟩
  · intro h
    simp [review_coerce_feedback, h]
  · intro h
    simp [review_coerce_feedback, h]
  · intro hj h
    simp [review_coerce_feedback, coerce_list_field, h, hj]
  · intro h
    simp [review_coerce_feedback, coerce_list_field, h]

/-- C3 witness: the amended statement evaluated on the claim's sample
input with a parse oracle failing on "one" (as Python's `json.loads`
does). -/
theorem review_coerce_feedback_passthrough_witness :
    (review_coerce_feedback (fun _ => none) "Software Engineer"
        sample_feedback_input).overall_score = FVal.fint 999 ∧
    (review_coerce_feedback (fun _ => none) "Software Engineer"
        sample_feedback_input).strengths = FVal.flist ["one"] :=
  ⟨(review_coerce_feedback_passthrough (fun _ => none) "Software Engineer"
      sample_feedback_input (FVal.fint 999) "one" 0).1 rfl,
   (review_coerce_feedback_passthrough (fun _ => none) "Software Engineer"
      sample_feedback_input (FVal.fint 999) "one" 0).2.2.1 rfl rfl⟩

/-! ## Structured extraction from résumé text -/

/-- The structure returned by `extract_structured_from_resume_text`. -/
structure ResumeStruct where
  job_role : String
  skills : List String
  experience_years : Int
  education : String
  summary : String
  key_achievements : List String
  industries : List String
  raw : String
deriving DecidableEq

/-- The dict parsed from the first JSON block found in the AI output;
each key optionally present (`parsed.get(key, default)`). -/
structure ParsedResume where
  job_role : Option String := none
  skills : Option (List String) := none
  experience_years : Option Int := none
  education : Option String := none
  summary : Option String := none
  key_achievements : Option (List String) := none
  industries : Option (List String) := none

/-- Outcome of the generation-plus-JSON-search pipeline inside
`extract_structured_from_resume_text`: either some regex pattern matched
and `json.loads` succeeded on it (`parsedJson p rawOut`, with `rawOut`
the full AI output), or no JSON block could be parsed / the call raised
or returned nothing (`failed rawOut`, with `rawOut` whatever `ai_output`
held at that point — `""` when the call itself failed). -/
inductive ExtractOutcome where
  | parsedJson (p : ParsedResume) (rawOut : String)
  | failed (rawOut : String)

/-- `extract_structured_from_resume_text` (views.py lines 946-1025),
with the external generation + regex + `json.loads` pipeline abstracted
as the `ExtractOutcome` oracle: a text that is empty or shorter than 100
stripped characters short-circuits to the all-empty structure; a parsed
JSON block fills each field from the dict with constant empty defaults;
any other outcome falls back to the all-empty structure carrying the raw
output.  No heuristic over the raw résumé text appears anywhere. -/
def extract_structured_from_resume_text (resume_text : String)
    (outcome : ExtractOutcome) : ResumeStruct :=
  if (pyStrip resume_text).length < 100 then
    { job_role := "", skills := [], experience_years := 0, education := "",
      summary := "", key_achievements := [], industries := [], raw := "" }
  else
    match outcome with
    | ExtractOutcome.parsedJson p rawOut =>
      { job_role := p.job_role.getD "", skills := p.skills.getD [],
        experience_years := p.experience_years.getD 0,
        education := p.education.getD "", summary := p.summary.getD "",
        key_achievements := p.key_achievements.getD [],
        industries := p.industries.getD [], raw := rawOut }
    | ExtractOutcome.failed rawOut =>
      { job_role := "", skills := [], experience_years := 0, education := "",
        summary := "", key_achievements := [], industries := [], raw := rawOut }

/-- A 100+-character résumé text whose skills any keyword heuristic over
the raw text would find. -/
def resume_with_skills : String :=
  "Jane Doe. Senior backend developer with eight years of experience building Python and Java microservices with Docker, Kubernetes and PostgreSQL at scale."

/-- A 100+-character text naming no technology at all. -/
def resume_without_skills : String :=
  "This plain text talks at length about gardening, cooking, hiking and travel, and it mentions no technology, no tooling and no programming language anywhere."

set_option maxRecDepth 8000 in
/-- C9 counterexample: with generation unusable, the extractor returns
the all-empty profile whatever the raw text contains — the skills field
for a résumé naming Python is `[]`, and the whole result is identical to
the result for a text naming no skills at all, so no field is replaced
by a heuristic value computed from the raw résumé text. -/
theorem extraction_ignores_raw_text :
    strContainsPy resume_with_skills "Python" = true ∧
    100 ≤ (pyStrip resume_with_skills).length ∧
    (extract_structured_from_resume_text resume_with_skills
      (ExtractOutcome.failed "no json in this output")).skills = [] ∧
    extract_structured_from_resume_text resume_with_skills
        (ExtractOutcome.failed "no json in this output") =
      extract_structured_from_resume_text resume_without_skills
        (ExtractOutcome.failed "no json in this output") := by
  refine ⟨by decide, by decide, rfl, rfl⟩

/-- C9 (amended): profile extraction has no per-field heuristic fallback
computed from the raw text — for any two texts long enough to be
processed, the result depends only on the generation outcome; when no
JSON block parses, every field falls back simultaneously to its empty
default (document-by-document), and when a block parses, each missing
key independently defaults to a constant empty value. -/
theorem extraction_document_level_fallback (t1 t2 : String)
    (o : ExtractOutcome) (r : String)
    (h1 : 100 ≤ (pyStrip t1).length) (h2 : 100 ≤ (pyStrip t2).length) :
    extract_structured_from_resume_text t1 o =
      extract_structured_from_resume_text t2 o ∧
    (extract_structured_from_resume_text t1 (ExtractOutcome.failed r)).skills
      = [] ∧
    (extract_structured_from_resume_text t1 (ExtractOutcome.failed r)).job_role
      = "" ∧
    (extract_structured_from_resume_text t1
      (ExtractOutcome.failed r)).key_achievements = [] := by
  have h1' : ¬(pyStrip t1).length < 100 := by omega
  have h2' : ¬(pyStrip t2).length < 100 := by omega
  unfold extract_structured_from_resume_text
  simp only [if_neg h1', if_neg h2']
  refine ⟨?_, ?_, ?_, ?_⟩ <;> trivial

set_option maxRecDepth 8000 in
/-- C9 witness: the amended statement at the two concrete texts and a
failed generation outcome. -/
theorem extraction_document_level_fallback_witness :
    extract_structured_from_resume_text resume_with_skills
        (ExtractOutcome.failed "x") =
      extract_structured_from_resume_text resume_without_skills
        (ExtractOutcome.failed "x") :=
  (extraction_document_level_fallback resume_with_skills resume_without_skills
    (ExtractOutcome.failed "x") "x" (by decide) (by decide)).1

/-! ## The session turn store -/

/-- One `InterviewTurn` row, restricted to the fields the engine reads
and writes on the turn path (`turn_number`, `ai_question`,
`user_answer`; `user_answer` is nullable). -/
structure Turn where
  turn_number : Nat
  ai_question : String
  user_answer : Option String
deriving DecidableEq

/-- Python truthiness of the `user_answer` column as the attach guard
tests it (`if last_turn and not last_turn.user_answer`): `None` and `""`
are falsy. -/
def answerFalsy : Option String → Bool
  | none => true
  | some s => s == ""

/-- The answer-attachment step of `ai_interaction_api` (views.py lines
1621-1628): take the turn with the highest turn number — the last
created one — and write `user_answer` on it, only when that turn's
answer is still empty; every other turn and every other field is left
untouched. -/
def attachToLast (ans : String) : List Turn → List Turn
  | [] => []
  | [t] =>
    if answerFalsy t.user_answer then [{ t with user_answer := some ans }]
    else [t]
  | t :: t2 :: rest => t :: attachToLast ans (t2 :: rest)

/-- A turn-creating engine operation, as the two endpoints perform it. -/
inductive Op where
  /-- `main_interview` POST (views.py lines 1405-1429): creates turn 1
  carrying the generated question when the session has no turns yet;
  with existing turns it only re-serves the last question, changing
  nothing. -/
  | startInterview (q : String)
  /-- `ai_interaction_api` (views.py lines 1585-1763): rejected without
  any state change when the user response is empty (line 1613);
  otherwise the answer is attached to the last turn (lines 1621-1628),
  and — unless generation produced an empty text, which aborts with an
  error after the attach (line 1678) — a new turn numbered
  `count(existing turns) + 1` is created with the new question (lines
  1738-1756). -/
  | interact (answer q : String)

/-- One engine operation applied to a session's turn list. -/
def applyOp : Op → List Turn → List Turn
  | Op.startInterview q, ts =>
    if ts.length == 0 then ts ++ [⟨1, q, none⟩] else ts
  | Op.interact ans q, ts =>
    if ans = "" then ts
    else
      let ts1 := attachToLast ans ts
      if q = "" then ts1
      else ts1 ++ [⟨ts.length + 1, q, none⟩]

/-- A session's turn list after a sequence of engine operations, starting
from the empty session. -/
def run (ops : List Op) : List Turn :=
  ops.foldl (fun ts op => applyOp op ts) []

/-- A member of a list found through `getElem?`. -/
theorem mem_of_some_getElem {l : List Turn} {i : Nat} {x : Turn}
    (h : l[i]? = some x) : x ∈ l := by
  rcases List.getElem?_eq_some.mp h with ⟨hlt, hg⟩
  exact hg ▸ List.getElem_mem hlt

/-- An index through which a member of a list is found. -/
theorem getElem_opt_of_mem {l : List Turn} {x : Turn} (h : x ∈ l) :
    ∃ i : Nat, l[i]? = some x := by
  rcases List.mem_iff_getElem.mp h with ⟨i, hi, hx⟩
  exact ⟨i, by rw [List.getElem?_eq_getElem hi, hx]⟩

/-- Attaching an answer never changes the turn numbers. -/
theorem attachToLast_map_number (a : String) :
    ∀ ts : List Turn,
      (attachToLast a ts).map Turn.turn_number = ts.map Turn.turn_number
  | [] => rfl
  | [t] => by
    unfold attachToLast
    split <;> rfl
  | t :: t2 :: rest => by
    show (t :: attachToLast a (t2 :: rest)).map Turn.turn_number = _
    simp [attachToLast_map_number a (t2 :: rest)]

/-- Attaching an answer never changes the number of turns. -/
theorem attachToLast_length (a : String) (ts : List Turn) :
    (attachToLast a ts).length = ts.length := by
  have h := congrArg List.length (attachToLast_map_number a ts)
  simpa using h

/-- `List.range'` with a final element appended. -/
theorem range'_snoc (s n : Nat) :
    List.range' s (n + 1) = List.range' s n ++ [s + n] := by
  have h := @List.range'_concat 1 s n
  simpa using h

/-- One engine operation preserves contiguity of the turn numbers. -/
theorem applyOp_numbers (op : Op) (ts : List Turn)
    (h : ts.map Turn.turn_number = List.range' 1 ts.length) :
    (applyOp op ts).map Turn.turn_number =
      List.range' 1 (applyOp op ts).length := by
  cases op with
  | startInterview q =>
    simp only [applyOp]
    by_cases h0 : ts.length = 0
    · rw [if_pos (by simpa using h0)]
      have : ts = [] := List.length_eq_zero.mp h0
      subst this
      rfl
    · rw [if_neg (by simpa using h0)]
      exact h
  | interact ans q =>
    simp only [applyOp]
    by_cases ha : ans = ""
    · rw [if_pos ha]
      exact h
    · rw [if_neg ha]
      by_cases hq : q = ""
      · rw [if_pos hq]
        rw [attachToLast_map_number, attachToLast_length]
        exact h
      · rw [if_neg hq]
        rw [List.map_append, attachToLast_map_number,
          List.length_append, attachToLast_length]
        rw [h]
        simp [range'_snoc, Nat.add_comm]

/-- C5: for every sequence of engine operations starting from an empty
session, the turn numbers are exactly 1..k — each created turn is
numbered `count(existing turns) + 1`, so the numbers stay contiguous
from 1. -/
theorem turn_numbers_contiguous (ops : List Op) :
    (run ops).map Turn.turn_number = List.range' 1 (run ops).length := by
  unfold run
  suffices h : ∀ ts : List Turn,
      ts.map Turn.turn_number = List.range' 1 ts.length →
      (ops.foldl (fun ts op => applyOp op ts) ts).map Turn.turn_number =
        List.range' 1
          ((ops.foldl (fun ts op => applyOp op ts) ts).length) by
    exact h [] rfl
  induction ops with
  | nil => intro ts hts; exact hts
  | cons op rest ih => intro ts hts; exact ih _ (applyOp_numbers op ts hts)

/-- Attaching an answer leaves each position either unchanged, or — for
the last position only, and only when its answer was still empty — with
just the `user_answer` field rewritten. -/
theorem attachToLast_getElem (a : String) :
    ∀ (ts : List Turn) (i : Nat),
      (attachToLast a ts)[i]? = ts[i]? ∨
      ∃ t, ts[i]? = some t ∧ i + 1 = ts.length ∧
        answerFalsy t.user_answer = true ∧
        (attachToLast a ts)[i]? = some { t with user_answer := some a }
  | [], i => Or.inl rfl
  | [t], 0 => by
    by_cases hf : answerFalsy t.user_answer
    · right
      refine ⟨t, by simp, rfl, hf, ?_⟩
      unfold attachToLast
      rw [if_pos hf]
      simp
    · left
      unfold attachToLast
      rw [if_neg hf]
  | [t], i + 1 => by
    left
    unfold attachToLast
    split <;> simp
  | t :: t2 :: rest, 0 => by
    left
    show (t :: attachToLast a (t2 :: rest))[0]? = (t :: t2 :: rest)[0]?
    simp
  | t :: t2 :: rest, i + 1 => by
    have hstep : attachToLast a (t :: t2 :: rest) =
        t :: attachToLast a (t2 :: rest) := rfl
    rcases attachToLast_getElem a (t2 :: rest) i with h | ⟨u, hu, hlen, hf, hget⟩
    · left
      rw [hstep, List.getElem?_cons_succ, List.getElem?_cons_succ, h]
    · right
      refine ⟨u, ?_, ?_, hf, ?_⟩
      · rw [List.getElem?_cons_succ]
        exact hu
      · simp only [List.length_cons] at hlen ⊢
        omega
      · rw [hstep, List.getElem?_cons_succ]
        exact hget

/-- In every reachable session state, an attached answer is non-empty:
the endpoint rejects empty user responses before attaching, and fresh
turns carry no answer. -/
theorem run_answers_nonempty (ops : List Op) :
    ∀ t ∈ run ops, t.user_answer ≠ some "" := by
  unfold run
  have hattach : ∀ (a : String) (ts : List Turn), a ≠ "" →
      (∀ t ∈ ts, t.user_answer ≠ some "") →
      ∀ t ∈ attachToLast a ts, t.user_answer ≠ some "" := by
    intro a ts ha hts t ht
    rcases getElem_opt_of_mem ht with ⟨i, hget⟩
    rcases attachToLast_getElem a ts i with hc | ⟨u, hu, _, _, hsome⟩
    · exact hts t (mem_of_some_getElem (by rw [← hc]; exact hget))
    · have heq : some t = some { u with user_answer := some a } :=
        hget.symm.trans hsome
      cases Option.some.inj heq
      simpa using ha
  have hstep : ∀ (op : Op) (ts : List Turn),
      (∀ t ∈ ts, t.user_answer ≠ some "") →
      ∀ t ∈ applyOp op ts, t.user_answer ≠ some "" := by
    intro op ts hts
    cases op with
    | startInterview q =>
      simp only [applyOp]
      split
      · intro t ht
        rcases List.mem_append.mp ht with h | h
        · exact hts t h
        · simp at h
          subst h
          simp
      · exact hts
    | interact ans q =>
      simp only [applyOp]
      by_cases ha : ans = ""
      · rw [if_pos ha]
        exact hts
      · rw [if_neg ha]
        by_cases hq : q = ""
        · rw [if_pos hq]
          exact hattach ans ts ha hts
        · rw [if_neg hq]
          intro t ht
          rcases List.mem_append.mp ht with h | h
          · exact hattach ans ts ha hts t h
          · simp at h
            subst h
            simp
  suffices h : ∀ ts : List Turn, (∀ t ∈ ts, t.user_answer ≠ some "") →
      ∀ t ∈ ops.foldl (fun ts op => applyOp op ts) ts,
        t.user_answer ≠ some "" by
    exact h [] (by intro t ht; cases ht)
  induction ops with
  | nil => intro ts hts; exact hts
  | cons op rest ih => intro ts hts; exact ih _ (hstep op ts hts)

/-- C6: frame property of the engine operations on a reachable session.
For every reachable state and any further operation: every pre-existing
position keeps its turn number and question (only `user_answer` is ever
written in place); every position other than the most recent turn is
completely unchanged; and a turn whose answer is already attached
(non-null) is completely unchanged by any operation. -/
theorem answered_turns_immutable (ops : List Op) (op : Op) (i : Nat)
    (t : Turn) (h : (run ops)[i]? = some t) :
    (∃ u, (applyOp op (run ops))[i]? = some u ∧
      u.turn_number = t.turn_number ∧ u.ai_question = t.ai_question) ∧
    (i + 1 < (run ops).length → (applyOp op (run ops))[i]? = some t) ∧
    (∀ a, t.user_answer = some a → (applyOp op (run ops))[i]? = some t) := by
  set ts := run ops with hts
  have hi : i < ts.length := (List.getElem?_eq_some.mp h).1
  have hne : ts.length ≠ 0 := by omega
  have hanon : t.user_answer ≠ some "" :=
    run_answers_nonempty ops t (mem_of_some_getElem (hts ▸ h))
  cases op with
  | startInterview q =>
    have happ : applyOp (Op.startInterview q) ts = ts := by
      simp only [applyOp]
      rw [if_neg (by simpa using hne)]
    rw [happ]
    exact ⟨⟨t, h, rfl, rfl⟩, fun _ => h, fun _ _ => h⟩
  | interact ans q =>
    by_cases ha : ans = ""
    · have happ : applyOp (Op.interact ans q) ts = ts := by
        simp only [applyOp]
        rw [if_pos ha]
      rw [happ]
      exact ⟨⟨t, h, rfl, rfl⟩, fun _ => h, fun _ _ => h⟩
    · have happ : (applyOp (Op.interact ans q) ts)[i]? =
          (attachToLast ans ts)[i]? := by
        simp only [applyOp]
        rw [if_neg ha]
        by_cases hq : q = ""
        · rw [if_pos hq]
        · rw [if_neg hq]
          rw [List.getElem?_append,
            if_pos (by rw [attachToLast_length]; exact hi)]
      rw [happ]
      rcases attachToLast_getElem ans ts i with hc | ⟨u, hu, hlast, hf, hmod⟩
      · rw [hc]
        exact ⟨⟨t, h, rfl, rfl⟩, fun _ => h, fun _ _ => h⟩
      · have heq : u = t := Option.some.inj (hu.symm.trans h)
        subst heq
        refine ⟨⟨{ u with user_answer := some ans }, hmod, rfl, rfl⟩, ?_, ?_⟩
        · intro hlt
          omega
        · intro a hans
          rw [hans] at hanon hf
          have hane : a ≠ "" := fun he => hanon (by rw [he])
          simp [answerFalsy] at hf
          exact absurd hf hane

/-- C6 witness: a concrete two-turn session — turn 1 already answered —
is untouched at position 0 by a further interaction. -/
theorem answered_turns_immutable_witness :
    (applyOp
        (Op.interact "I collaborate closely with designers."
          "What would you improve about your last project?")
        (run
          [Op.startInterview "Could you walk me through your background?",
           Op.interact "I am a backend developer with five years of practice."
             "How do you approach debugging a production incident?"]))[0]? =
      some ⟨1, "Could you walk me through your background?",
        some "I am a backend developer with five years of practice."⟩ :=
  (answered_turns_immutable
    [Op.startInterview "Could you walk me through your background?",
     Op.interact "I am a backend developer with five years of practice."
       "How do you approach debugging a production incident?"]
    (Op.interact "I collaborate closely with designers."
      "What would you improve about your last project?")
    0
    ⟨1, "Could you walk me through your background?",
      some "I am a backend developer with five years of practice."⟩
    (by rfl)).2.2
    "I am a backend developer with five years of practice." rfl

end Elevo
